import Mathlib

set_option allowUnsafeReducibility true in
attribute [semireducible] Rat.add Rat.sub Rat.mul Rat.div Rat.inv

set_option maxRecDepth 100000

/-!
Shallow embedding of the VAD core of `src/vad_processor.py` (speakpy).

Audio samples are modelled as rationals (the Python code works on float32
arrays; we use exact rational arithmetic, the standard idealisation).
Python exceptions are modelled with `Except String`; the black-box Silero
model inference is a parameter of type `List ℚ → Except String ℚ`
(`.error` models an exception thrown by the inference call).
-/

namespace SpeakPy

instance {ε α : Type} [DecidableEq ε] [DecidableEq α] : DecidableEq (Except ε α) := fun
  | .error a, .error b => decidable_of_iff (a = b) (by simp)
  | .error _, .ok _ => .isFalse (by simp)
  | .ok _, .error _ => .isFalse (by simp)
  | .ok a, .ok b => decidable_of_iff (a = b) (by simp)

/-- `np.linspace 0 stop num`: `num` uniformly spaced rationals from `0` to
`stop`.  For `num = 1` numpy returns `[0]`, which the formula also yields
since division by zero is zero in `ℚ`. -/
def linspace (stop : ℚ) (num : ℕ) : List ℚ :=
  (List.range num).map (fun i : ℕ => stop * (i : ℚ) / ((num : ℚ) - 1))

/-- One-dimensional linear interpolation of `np.interp x (np.arange fp.length) fp`
at a single point `x`: clips below `0` to the first sample and above
`fp.length - 1` to the last sample, otherwise interpolates linearly between
the two neighbouring integer indices. -/
def interpAt (fp : List ℚ) (x : ℚ) : ℚ :=
  if x ≤ 0 then fp.headD 0
  else if ((fp.length : ℚ) - 1) ≤ x then fp.getLastD 0
  else
    let j := (⌊x⌋).toNat
    let a := fp.getD j 0
    let b := fp.getD (j + 1) 0
    a + (x - (j : ℚ)) * (b - a)

/-- `np.interp xs (np.arange fp.length) fp`: numpy raises
`ValueError: array of sample points is empty` when the sample-point array
(`fp` indexed by `np.arange len(fp)`) is empty, and otherwise evaluates the
piecewise-linear interpolant at every point of `xs`. -/
def npInterp (xs : List ℚ) (fp : List ℚ) : Except String (List ℚ) :=
  if fp.isEmpty then .error "ValueError: array of sample points is empty"
  else .ok (xs.map (interpAt fp))

/-- `VADProcessor` configuration state (`VADProcessor.__init__`,
src/vad_processor.py lines 15-56).  The loaded torch model is external and
is passed separately to the functions that call it. -/
structure VADProcessor where
  sample_rate : ℕ
  threshold : ℚ
  min_speech_duration_ms : ℕ
  min_silence_duration_ms : ℕ
  speech_pad_ms : ℕ
  min_speech_samples : ℕ
  min_silence_samples : ℕ
  speech_pad_samples : ℕ
deriving DecidableEq

/-- `VADProcessor.__init__`: stores the configuration and computes the
derived sample counts `int(sample_rate * ms / 1000)`. -/
def VADProcessor.init (sample_rate : ℕ) (threshold : ℚ)
    (min_speech_duration_ms : ℕ) (min_silence_duration_ms : ℕ)
    (speech_pad_ms : ℕ) : VADProcessor :=
  { sample_rate := sample_rate
    threshold := threshold
    min_speech_duration_ms := min_speech_duration_ms
    min_silence_duration_ms := min_silence_duration_ms
    speech_pad_ms := speech_pad_ms
    min_speech_samples := sample_rate * min_speech_duration_ms / 1000
    min_silence_samples := sample_rate * min_silence_duration_ms / 1000
    speech_pad_samples := sample_rate * speech_pad_ms / 1000 }

/-- `VADProcessor.resample_audio` (src/vad_processor.py lines 90-115).
If the rates agree the input is returned unchanged.  Otherwise
`new_length = int(len(audio) / original_rate * self.sample_rate)`
(truncation, i.e. `⌊len * rate / orig⌋`), then linear interpolation of the
input at `new_length` uniformly spaced positions over `[0, len-1]`.
`original_rate = 0` models Python's `ZeroDivisionError` in
`len(audio) / original_rate`. -/
def VADProcessor.resample_audio (vad : VADProcessor) (audio : List ℚ)
    (original_rate : ℕ) : Except String (List ℚ) :=
  if original_rate = vad.sample_rate then .ok audio
  else if original_rate = 0 then .error "ZeroDivisionError: division by zero"
  else
    let new_length := audio.length * vad.sample_rate / original_rate
    let indices := linspace ((audio.length : ℚ) - 1) new_length
    npInterp indices audio

/-- The resample-or-flatten preamble of the one-shot
`VADProcessor.process_chunk` (src/vad_processor.py lines 136-140):
`if original_rate and original_rate != self.sample_rate` — a `None` or `0`
rate is falsy and skips resampling (flatten is the identity on our
one-dimensional chunks). -/
def VADProcessor.oneShotPreprocess (vad : VADProcessor) (audio : List ℚ)
    (original_rate : Option ℕ) : Except String (List ℚ) :=
  match original_rate with
  | none => .ok audio
  | some r =>
      if r ≠ 0 ∧ r ≠ vad.sample_rate then vad.resample_audio audio r
      else .ok audio

/-- One-shot `VADProcessor.process_chunk` (src/vad_processor.py lines
117-151): raises `RuntimeError` if the model is not loaded, resamples if a
truthy, different rate is given, runs the model on the whole processed
chunk (no frame splitting, no exception handler), and thresholds the
probability. -/
def VADProcessor.process_chunk (vad : VADProcessor)
    (model : Option (List ℚ → Except String ℚ)) (audio_chunk : List ℚ)
    (original_rate : Option ℕ) : Except String (Bool × ℚ) :=
  match model with
  | none => .error "RuntimeError: VAD model not loaded"
  | some m =>
      match vad.oneShotPreprocess audio_chunk original_rate with
      | .error e => .error e
      | .ok processed =>
          match m processed with
          | .error e => .error e
          | .ok speech_prob => .ok (decide (vad.threshold ≤ speech_prob), speech_prob)

/-- `StreamingVAD` state (`StreamingVAD.__init__`, src/vad_processor.py
lines 173-211): configuration, the pending original-rate buffer, the
segmenter state and the statistics counters. -/
structure StreamingVAD where
  vad : VADProcessor
  original_rate : ℕ
  chunk_duration_ms : ℕ
  min_chunk_samples : ℕ
  buffer : List (List ℚ)
  buffer_size : ℕ
  target_buffer_samples : ℕ
  current_speech : List (List ℚ)
  is_in_speech : Bool
  silence_duration : ℚ
  total_chunks : ℕ
  speech_chunks : ℕ
deriving DecidableEq

/-- `StreamingVAD.__init__`: `min_chunk_samples = 512`,
`target_buffer_samples = int(512 / vad.sample_rate * original_sample_rate)`
(exactly `⌊512 * original_rate / vad_rate⌋`), empty buffers, `Idle`
segmenter state, zeroed counters. -/
def StreamingVAD.init (vad_processor : VADProcessor) (original_sample_rate : ℕ)
    (chunk_duration_ms : ℕ) : StreamingVAD :=
  { vad := vad_processor
    original_rate := original_sample_rate
    chunk_duration_ms := chunk_duration_ms
    min_chunk_samples := 512
    buffer := []
    buffer_size := 0
    target_buffer_samples := 512 * original_sample_rate / vad_processor.sample_rate
    current_speech := []
    is_in_speech := false
    silence_duration := 0
    total_chunks := 0
    speech_chunks := 0 }

/-- `required_samples = 512 if self.vad.sample_rate == 16000 else 256`
(src/vad_processor.py line 247). -/
def required_samples (vad : VADProcessor) : ℕ :=
  if vad.sample_rate = 16000 then 512 else 256

/-- The segmentation part of `StreamingVAD.process_chunk`
(src/vad_processor.py lines 282-307), applied after the statistics update:
on a speech window enter/stay in speech, retain the original-rate buffered
audio and reset the silence clock; on a silent window while in speech,
still retain the audio, add the buffer's duration in milliseconds and
leave speech once `min_silence_duration_ms` is reached; on silence while
idle, do nothing. -/
def segmenterStep (s : StreamingVAD) (buffered_audio : List ℚ)
    (is_speech : Bool) : StreamingVAD :=
  if is_speech then
    { s with is_in_speech := true
             current_speech := s.current_speech ++ [buffered_audio]
             silence_duration := 0 }
  else if s.is_in_speech then
    let sd := s.silence_duration +
      (buffered_audio.length : ℚ) / (s.original_rate : ℚ) * 1000
    if (s.vad.min_silence_duration_ms : ℚ) ≤ sd then
      { s with current_speech := s.current_speech ++ [buffered_audio]
               is_in_speech := false
               silence_duration := 0 }
    else
      { s with current_speech := s.current_speech ++ [buffered_audio]
               silence_duration := sd }
  else s

/-- `StreamingVAD.process_chunk` (src/vad_processor.py lines 213-312).
The chunk is appended to the pending buffer; below `target_buffer_samples`
the call returns the prior state with probability `0`.  Otherwise the
buffer is flushed: concatenated, cleared, resampled, split into
`⌊len / required_samples⌋` exact frames, each classified by the black-box
`model` (an inference exception is caught and scored `0.0`), and the
averaged probability drives the threshold decision, the statistics
counters and the segmenter. -/
def StreamingVAD.process_chunk (s : StreamingVAD)
    (model : List ℚ → Except String ℚ) (audio_chunk : List ℚ) :
    Except String ((Bool × ℚ) × StreamingVAD) :=
  let buffer := s.buffer ++ [audio_chunk]
  let buffer_size := s.buffer_size + audio_chunk.length
  if buffer_size < s.target_buffer_samples then
    .ok ((s.is_in_speech, 0), { s with buffer := buffer, buffer_size := buffer_size })
  else
    let buffered_audio := buffer.flatten
    match s.vad.resample_audio buffered_audio s.original_rate with
    | .error e => .error e
    | .ok resampled =>
      let required := required_samples s.vad
      let num_full_chunks := resampled.length / required
      let speech_probs := (List.range num_full_chunks).map (fun i =>
        match model ((resampled.drop (i * required)).take required) with
        | .ok p => p
        | .error _ => 0)
      if speech_probs.isEmpty then
        .ok ((s.is_in_speech, 0), { s with buffer := [], buffer_size := 0 })
      else
        let avg_speech_prob := speech_probs.sum / (speech_probs.length : ℚ)
        let is_speech := decide (s.vad.threshold ≤ avg_speech_prob)
        let s1 := { s with buffer := []
                           buffer_size := 0
                           total_chunks := s.total_chunks + num_full_chunks }
        let s2 := if is_speech then
                    { s1 with speech_chunks := s1.speech_chunks + num_full_chunks }
                  else s1
        .ok ((is_speech, avg_speech_prob), segmenterStep s2 buffered_audio is_speech)

/-- Iterate `StreamingVAD.process_chunk` over a chunk sequence, collecting
the per-call return values; an exception aborts the run as in Python. -/
def processAll (model : List ℚ → Except String ℚ) (s : StreamingVAD) :
    List (List ℚ) → Except String (List (Bool × ℚ) × StreamingVAD)
  | [] => .ok ([], s)
  | c :: cs =>
    match s.process_chunk model c with
    | .error e => .error e
    | .ok (r, s1) =>
      match processAll model s1 cs with
      | .error e => .error e
      | .ok (rs, sN) => .ok (r :: rs, sN)

/-- `StreamingVAD.get_speech_audio` (src/vad_processor.py lines 314-323):
`None` when nothing was retained, otherwise the concatenation of the
retained segments in arrival order. -/
def StreamingVAD.get_speech_audio (s : StreamingVAD) : Option (List ℚ) :=
  if s.current_speech.isEmpty then none else some s.current_speech.flatten

/-- The dictionary returned by `StreamingVAD.get_statistics`. -/
structure Statistics where
  total_chunks : ℕ
  speech_chunks : ℕ
  speech_ratio : ℚ
deriving DecidableEq

/-- `StreamingVAD.get_statistics` (src/vad_processor.py lines 325-335):
`speech_ratio = speech_chunks / total_chunks if total_chunks > 0 else 0`. -/
def StreamingVAD.get_statistics (s : StreamingVAD) : Statistics :=
  { total_chunks := s.total_chunks
    speech_chunks := s.speech_chunks
    speech_ratio := if 0 < s.total_chunks then
        (s.speech_chunks : ℚ) / (s.total_chunks : ℚ)
      else 0 }

/-! ## Helper lemmas -/

theorem linspace_length (stop : ℚ) (num : ℕ) : (linspace stop num).length = num := by
  rw [linspace, List.length_map, List.length_range]

theorem linspace_zero (num : ℕ) : linspace 0 num = List.replicate num 0 := by
  simp [linspace]

theorem segmenterStep_preserves (s : StreamingVAD) (b : List ℚ) (i : Bool) :
    (segmenterStep s b i).total_chunks = s.total_chunks
    ∧ (segmenterStep s b i).speech_chunks = s.speech_chunks
    ∧ (segmenterStep s b i).buffer = s.buffer
    ∧ (segmenterStep s b i).buffer_size = s.buffer_size := by
  simp only [segmenterStep]
  split_ifs <;> exact ⟨rfl, rfl, rfl, rfl⟩

/-! ## Claims -/

/-- C8: for every sample rate `r` and every audio input, `resample_audio`
with original rate equal to the VAD rate returns the input itself
unchanged (identity, not an approximation). -/
theorem c8_resample_identity (r : ℕ) (threshold : ℚ) (msd msil pad : ℕ)
    (audio : List ℚ) :
    (VADProcessor.init r threshold msd msil pad).resample_audio audio r
      = .ok audio := by
  simp [VADProcessor.resample_audio, VADProcessor.init]

/-- C4 counterexample: at 11 input samples, 44100 → 16000 Hz, the code
returns `int(11 / 44100 * 16000) = 3` samples while
`round(11 / 44100 * 16000) = 4`, so "exactly round(...)" is false. -/
theorem c4_counterexample :
    (VADProcessor.init 16000 (1/2) 250 100 30).resample_audio
        (List.replicate 11 0) 44100 = .ok (List.replicate 3 0)
    ∧ round (((List.replicate 11 (0:ℚ)).length : ℚ) / 44100 * 16000) = 4
    ∧ (List.replicate 3 (0:ℚ)).length ≠ 4 := by
  refine ⟨by decide, ?_, by decide⟩
  norm_num [round_eq]

/-- C4 amended: for every audio input of length at least 2 with
`original_rate` different from the VAD rate (and nonzero), `resample_audio`
returns exactly `int(len / from * to) = ⌊len * to / from⌋` samples
(truncation, not rounding), computed by linear interpolation of the input
at uniformly spaced fractional positions over the original sample
indices. -/
theorem c4_amended (vad : VADProcessor) (audio : List ℚ) (original_rate : ℕ)
    (hlen : 2 ≤ audio.length) (hne : original_rate ≠ vad.sample_rate)
    (h0 : original_rate ≠ 0) :
    vad.resample_audio audio original_rate =
      .ok ((linspace ((audio.length : ℚ) - 1)
              (audio.length * vad.sample_rate / original_rate)).map (interpAt audio))
    ∧ ((linspace ((audio.length : ℚ) - 1)
          (audio.length * vad.sample_rate / original_rate)).map
            (interpAt audio)).length
        = audio.length * vad.sample_rate / original_rate := by
  have hnil : audio ≠ [] := by
    intro hcon
    rw [hcon] at hlen
    simp at hlen
  constructor
  · simp [VADProcessor.resample_audio, hne, h0, npInterp, hnil]
  · simp [linspace_length]

theorem c4_amended_witness :
    (VADProcessor.init 16000 (1/2) 250 100 30).resample_audio [0, 1] 8000 =
      .ok ((linspace ((([0, 1] : List ℚ).length : ℚ) - 1) 4).map (interpAt [0, 1]))
    ∧ ((linspace ((([0, 1] : List ℚ).length : ℚ) - 1) 4).map (interpAt [0, 1])).length
        = 4 :=
  c4_amended (VADProcessor.init 16000 (1/2) 250 100 30) [0, 1] 8000
    (by decide) (by decide) (by decide)

/-- C5 counterexample: a length-1 input with `original_rate ≠` VAD rate is
resampled silently — the call returns `.ok [5, 5]`, not a defined error. -/
theorem c5_counterexample :
    (VADProcessor.init 16000 (1/2) 250 100 30).resample_audio [5] 8000
      = .ok [5, 5] := by decide

/-- C5 amended: with differing (nonzero) rates, a length-0 input raises
numpy's `ValueError` from `np.interp`, but a length-1 input silently
produces `⌊to_rate / from_rate⌋` copies of the single sample — there is no
defined error for the length-1 degenerate case. -/
theorem c5_amended (vad : VADProcessor) (original_rate : ℕ) (a : ℚ)
    (hne : original_rate ≠ vad.sample_rate) (h0 : original_rate ≠ 0) :
    vad.resample_audio ([] : List ℚ) original_rate
        = .error "ValueError: array of sample points is empty"
    ∧ vad.resample_audio [a] original_rate
        = .ok (List.replicate (vad.sample_rate / original_rate) a) := by
  constructor
  · simp [VADProcessor.resample_audio, hne, h0, npInterp]
  · have h1 : vad.resample_audio [a] original_rate
        = npInterp (linspace ((1 : ℚ) - 1) (vad.sample_rate / original_rate)) [a] := by
      simp [VADProcessor.resample_audio, hne, h0]
    rw [h1, show ((1 : ℚ) - 1) = 0 by norm_num, linspace_zero, npInterp]
    rw [if_neg (by simp)]
    simp [interpAt, List.map_replicate]

theorem c5_amended_witness :
    (VADProcessor.init 16000 (1/2) 250 100 30).resample_audio ([] : List ℚ) 8000
        = .error "ValueError: array of sample points is empty"
    ∧ (VADProcessor.init 16000 (1/2) 250 100 30).resample_audio [(5:ℚ)] 8000
        = .ok (List.replicate 2 5) :=
  c5_amended (VADProcessor.init 16000 (1/2) 250 100 30) 8000 5
    (by decide) (by decide)

/-- C10: the one-shot classifier raises `RuntimeError` whenever the model
is `None`, for every audio input and rate argument (before touching the
audio), and an exception thrown by the model inference call propagates to
the caller — there is no treat-as-silence fallback on the one-shot path. -/
theorem c10_one_shot_errors (vad : VADProcessor)
    (m : List ℚ → Except String ℚ) (audio processed : List ℚ)
    (original_rate : Option ℕ) (e : String)
    (hpre : vad.oneShotPreprocess audio original_rate = .ok processed)
    (hm : m processed = .error e) :
    (∀ (a : List ℚ) (o : Option ℕ),
        vad.process_chunk none a o = .error "RuntimeError: VAD model not loaded")
    ∧ vad.process_chunk (some m) audio original_rate = .error e := by
  constructor
  · intro a o
    rfl
  · simp [VADProcessor.process_chunk, hpre, hm]

theorem c10_one_shot_errors_witness :
    (VADProcessor.init 16000 (1/2) 250 100 30).process_chunk none [] none
        = .error "RuntimeError: VAD model not loaded"
    ∧ (VADProcessor.init 16000 (1/2) 250 100 30).process_chunk
        (some (fun _ => .error "boom")) [0, 0] none = .error "boom" := by
  have h := c10_one_shot_errors (VADProcessor.init 16000 (1/2) 250 100 30)
      (fun _ => .error "boom") [0, 0] [0, 0] none "boom" rfl rfl
  exact ⟨h.1 [] none, h.2⟩

/-- C7: while the pending sample count (including the new chunk) is below
`target_buffer_samples`, `process_chunk` returns the prior `is_in_speech`
paired with probability `0.0` and changes nothing except the pending
buffer — counters, segmenter state and retained audio are untouched. -/
theorem c7_pending_no_result (model : List ℚ → Except String ℚ)
    (s : StreamingVAD) (audio_chunk : List ℚ)
    (h : s.buffer_size + audio_chunk.length < s.target_buffer_samples) :
    s.process_chunk model audio_chunk =
      .ok ((s.is_in_speech, 0),
        { s with buffer := s.buffer ++ [audio_chunk]
                 buffer_size := s.buffer_size + audio_chunk.length }) := by
  simp [StreamingVAD.process_chunk, h]

theorem c7_pending_no_result_witness :
    (StreamingVAD.init (VADProcessor.init 16000 (1/2) 250 100 30) 16000 30).process_chunk
        (fun _ => .ok 1) (List.replicate 10 0) =
      .ok ((false, 0),
        { StreamingVAD.init (VADProcessor.init 16000 (1/2) 250 100 30) 16000 30 with
            buffer := [List.replicate 10 0]
            buffer_size := 10 }) := by
  have h := c7_pending_no_result (fun _ => .ok 1)
      (StreamingVAD.init (VADProcessor.init 16000 (1/2) 250 100 30) 16000 30)
      (List.replicate 10 0) (by decide)
  simpa using h

/-- The segmenter transition relation exactly as claim C3 states it,
written independently of the code: from `Idle` on speech enter `InSpeech`,
append the window's source buffer, reset the silence counter; from `Idle`
on silence stay `Idle` and drop the buffer; from `InSpeech` on speech
append and reset; from `InSpeech` on silence still append, add the
buffer's duration in milliseconds, and transition to `Idle` (resetting the
counter) exactly when accumulated silence reaches
`min_silence_duration_ms`, keeping the trailing silence. -/
def segmenterSpecStep (s : StreamingVAD) (buf : List ℚ) (is_speech : Bool) :
    StreamingVAD :=
  match s.is_in_speech, is_speech with
  | false, true =>
      { s with is_in_speech := true
               current_speech := s.current_speech ++ [buf]
               silence_duration := 0 }
  | false, false => s
  | true, true =>
      { s with current_speech := s.current_speech ++ [buf]
               silence_duration := 0 }
  | true, false =>
      let buffer_duration_ms := (buf.length : ℚ) / (s.original_rate : ℚ) * 1000
      let accumulated := s.silence_duration + buffer_duration_ms
      if (s.vad.min_silence_duration_ms : ℚ) ≤ accumulated then
        { s with current_speech := s.current_speech ++ [buf]
                 is_in_speech := false
                 silence_duration := 0 }
      else
        { s with current_speech := s.current_speech ++ [buf]
                 silence_duration := accumulated }

/-- C3: the segmenter's per-window step of `process_chunk` is exactly the
transition relation of the spec (`segmenterSpecStep`). -/
theorem c3_segmenter_matches_spec (s : StreamingVAD) (buf : List ℚ) (b : Bool) :
    segmenterStep s buf b = segmenterSpecStep s buf b := by
  cases s with
  | mk vad orig cms mcs buffer bs tbs cs iis sd tc sc =>
    cases iis <;> cases b <;>
      simp [segmenterStep, segmenterSpecStep]

/-- Concrete configuration used by witnesses: 16 kHz VAD, threshold 1/2,
default durations. -/
def vadEx : VADProcessor := VADProcessor.init 16000 (1/2) 250 100 30

/-- Concrete streaming state used by witnesses: 16 kHz capture into the
16 kHz VAD. -/
def svadEx : StreamingVAD := StreamingVAD.init vadEx 16000 30

theorem process_chunk_counters (model : List ℚ → Except String ℚ)
    (s : StreamingVAD) (c : List ℚ) (r : Bool × ℚ) (t : StreamingVAD)
    (h : s.process_chunk model c = .ok (r, t)) :
    s.total_chunks ≤ t.total_chunks ∧ s.speech_chunks ≤ t.speech_chunks
    ∧ (s.speech_chunks ≤ s.total_chunks → t.speech_chunks ≤ t.total_chunks) := by
  simp only [StreamingVAD.process_chunk] at h
  split at h
  · injection h with h1
    injection h1 with hr ht
    subst ht
    exact ⟨le_rfl, le_rfl, fun hh => hh⟩
  · split at h
    · exact absurd h (by simp)
    · split at h
      · injection h with h1
        injection h1 with hr ht
        subst ht
        exact ⟨le_rfl, le_rfl, fun hh => hh⟩
      · injection h with h1
        injection h1 with hr ht
        subst ht
        rw [(segmenterStep_preserves _ _ _).1, (segmenterStep_preserves _ _ _).2.1]
        split
        · refine ⟨Nat.le_add_right _ _, Nat.le_add_right _ _, fun hh => ?_⟩
          exact Nat.add_le_add_right hh _
        · refine ⟨Nat.le_add_right _ _, le_rfl, fun hh => ?_⟩
          exact le_trans hh (Nat.le_add_right _ _)

theorem processAll_counters (model : List ℚ → Except String ℚ)
    (chunks : List (List ℚ)) :
    ∀ (s : StreamingVAD) (rs : List (Bool × ℚ)) (t : StreamingVAD),
      processAll model s chunks = .ok (rs, t) →
      s.speech_chunks ≤ s.total_chunks → t.speech_chunks ≤ t.total_chunks := by
  induction chunks with
  | nil =>
    intro s rs t h hinv
    simp only [processAll] at h
    injection h with h1
    injection h1 with hr ht
    subst ht
    exact hinv
  | cons c cs ih =>
    intro s rs t h hinv
    simp only [processAll] at h
    split at h
    · exact absurd h (by simp)
    · rename_i r1 s1 heq
      split at h
      · exact absurd h (by simp)
      · rename_i p rs1 t1 heq2
        injection h with h1
        injection h1 with hr ht
        subst ht
        exact ih s1 rs1 t1 heq2
          ((process_chunk_counters model s c r1 s1 heq).2.2 hinv)

/-- C6: the statistics counters never decrease across a `process_chunk`
call, `speech_chunks ≤ total_chunks` holds after any sequence of calls
from a fresh session, and `get_statistics` reports `speech_ratio = 0`
when `total_chunks = 0` instead of raising a division error. -/
theorem c6_statistics (model : List ℚ → Except String ℚ)
    (s : StreamingVAD) (c : List ℚ) (r : Bool × ℚ) (t : StreamingVAD)
    (h : s.process_chunk model c = .ok (r, t))
    (vp : VADProcessor) (orig cms : ℕ) (chunks : List (List ℚ))
    (rs : List (Bool × ℚ)) (sN : StreamingVAD)
    (hrun : processAll model (StreamingVAD.init vp orig cms) chunks = .ok (rs, sN))
    (u : StreamingVAD) (hu : u.total_chunks = 0) :
    s.total_chunks ≤ t.total_chunks
    ∧ s.speech_chunks ≤ t.speech_chunks
    ∧ sN.speech_chunks ≤ sN.total_chunks
    ∧ u.get_statistics.speech_ratio = 0 := by
  obtain ⟨h1, h2, h3⟩ := process_chunk_counters model s c r t h
  refine ⟨h1, h2, ?_, ?_⟩
  · exact processAll_counters model chunks _ rs sN hrun (by simp [StreamingVAD.init])
  · simp [StreamingVAD.get_statistics, hu]

theorem c6_statistics_witness :
    svadEx.total_chunks ≤ ({ svadEx with buffer := [List.replicate 10 0]
                                         buffer_size := 10 }).total_chunks
    ∧ svadEx.speech_chunks ≤ ({ svadEx with buffer := [List.replicate 10 0]
                                            buffer_size := 10 }).speech_chunks
    ∧ ({ svadEx with buffer := [List.replicate 10 0]
                     buffer_size := 10 }).speech_chunks
        ≤ ({ svadEx with buffer := [List.replicate 10 0]
                         buffer_size := 10 }).total_chunks
    ∧ svadEx.get_statistics.speech_ratio = 0 :=
  c6_statistics (fun _ => .ok 0) svadEx (List.replicate 10 0) (false, 0)
    { svadEx with buffer := [List.replicate 10 0], buffer_size := 10 }
    (by decide) vadEx 16000 30 [List.replicate 10 0] [(false, 0)]
    { svadEx with buffer := [List.replicate 10 0], buffer_size := 10 }
    (by decide) svadEx (by decide)

theorem required_samples_pos (vad : VADProcessor) : 0 < required_samples vad := by
  unfold required_samples
  split <;> norm_num

theorem required_samples_of_16000 {vad : VADProcessor}
    (h : vad.sample_rate = 16000) : required_samples vad = 512 := by
  simp [required_samples, h]

theorem required_samples_of_8000 {vad : VADProcessor}
    (h : vad.sample_rate = 8000) : required_samples vad = 256 := by
  simp [required_samples, h]

theorem resample_ok_of_ne (vad : VADProcessor) (audio : List ℚ) (orig : ℕ)
    (hne : orig ≠ vad.sample_rate) (h0 : orig ≠ 0) (hnil : audio ≠ []) :
    vad.resample_audio audio orig
      = .ok ((linspace ((audio.length : ℚ) - 1)
          (audio.length * vad.sample_rate / orig)).map (interpAt audio)) := by
  simp [VADProcessor.resample_audio, hne, h0, npInterp, hnil]

/-- A flush (pending count at or above `target_buffer_samples`) succeeds
whenever the resampling does, increments `total_chunks` by exactly
`⌊resampled length / required_samples⌋`, and clears the pending buffer —
the resampled remainder is not carried forward. -/
theorem process_chunk_flush (model : List ℚ → Except String ℚ)
    (s : StreamingVAD) (chunk : List ℚ) (rs : List ℚ)
    (hflush : s.target_buffer_samples ≤ s.buffer_size + chunk.length)
    (hres : s.vad.resample_audio ((s.buffer ++ [chunk]).flatten) s.original_rate
      = .ok rs) :
    ∃ out t, s.process_chunk model chunk = .ok (out, t)
      ∧ t.total_chunks = s.total_chunks + rs.length / required_samples s.vad
      ∧ t.buffer = [] ∧ t.buffer_size = 0 := by
  simp only [StreamingVAD.process_chunk]
  rw [if_neg (not_lt.mpr hflush)]
  simp only [hres]
  by_cases hnum : rs.length / required_samples s.vad = 0
  · rw [hnum]
    simp only [List.range_zero, List.map_nil, List.isEmpty_nil]
    rw [if_true]
    exact ⟨_, _, rfl, by simp [hnum], rfl, rfl⟩
  · rw [if_neg (by simp [List.isEmpty_iff, List.range_eq_nil, hnum])]
    refine ⟨_, _, rfl, ?_, ?_, ?_⟩
    · rw [(segmenterStep_preserves _ _ _).1]
      split <;> rfl
    · rw [(segmenterStep_preserves _ _ _).2.2.1]
      split <;> rfl
    · rw [(segmenterStep_preserves _ _ _).2.2.2]
      split <;> rfl

/-- At capture AND VAD rates both in {8000, 16000} Hz a flush always
resamples to at least one full required frame and classifies it
(`total_chunks` strictly increases).  This bounds the zero-frame flush
bug exhibited by `c1_zero_frame_flush_bug` to other capture rates. -/
theorem flush_classifies_at_standard_rates (model : List ℚ → Except String ℚ)
    (s : StreamingVAD) (chunk : List ℚ)
    (hrate : s.vad.sample_rate = 16000 ∨ s.vad.sample_rate = 8000)
    (horig : s.original_rate = 16000 ∨ s.original_rate = 8000)
    (htar : s.target_buffer_samples = 512 * s.original_rate / s.vad.sample_rate)
    (hbs : s.buffer_size = s.buffer.flatten.length)
    (hflush : s.target_buffer_samples ≤ s.buffer_size + chunk.length) :
    (∃ rs, s.vad.resample_audio ((s.buffer ++ [chunk]).flatten) s.original_rate
        = .ok rs ∧ required_samples s.vad ≤ rs.length)
    ∧ ∃ out t, s.process_chunk model chunk = .ok (out, t)
        ∧ s.total_chunks < t.total_chunks := by
  have hn : (s.buffer ++ [chunk]).flatten.length = s.buffer_size + chunk.length := by
    simp [hbs]
  have key : ∃ rs,
      s.vad.resample_audio ((s.buffer ++ [chunk]).flatten) s.original_rate = .ok rs
      ∧ required_samples s.vad ≤ rs.length := by
    rcases hrate with hr | hr <;> rcases horig with ho | ho
    · -- VAD 16000, capture 16000: identity resampling
      rw [htar, ho, hr] at hflush
      norm_num at hflush
      refine ⟨_, by rw [VADProcessor.resample_audio, if_pos (ho.trans hr.symm)], ?_⟩
      rw [hn, required_samples_of_16000 hr]
      exact hflush
    · -- VAD 16000, capture 8000: lengths double
      rw [htar, ho, hr] at hflush
      norm_num at hflush
      have hnil : (s.buffer ++ [chunk]).flatten ≠ [] := by
        intro hcon
        rw [hcon] at hn
        simp at hn
        omega
      refine ⟨_, resample_ok_of_ne s.vad _ s.original_rate
          (by rw [ho, hr]; decide) (by rw [ho]; decide) hnil, ?_⟩
      rw [List.length_map, linspace_length, hn, required_samples_of_16000 hr, ho, hr]
      omega
    · -- VAD 8000, capture 16000: lengths halve
      rw [htar, ho, hr] at hflush
      norm_num at hflush
      have hnil : (s.buffer ++ [chunk]).flatten ≠ [] := by
        intro hcon
        rw [hcon] at hn
        simp at hn
        omega
      refine ⟨_, resample_ok_of_ne s.vad _ s.original_rate
          (by rw [ho, hr]; decide) (by rw [ho]; decide) hnil, ?_⟩
      rw [List.length_map, linspace_length, hn, required_samples_of_8000 hr, ho, hr]
      omega
    · -- VAD 8000, capture 8000: identity resampling
      rw [htar, ho, hr] at hflush
      norm_num at hflush
      refine ⟨_, by rw [VADProcessor.resample_audio, if_pos (ho.trans hr.symm)], ?_⟩
      rw [hn, required_samples_of_8000 hr]
      omega
  obtain ⟨rs, hres, hreq⟩ := key
  refine ⟨⟨rs, hres, hreq⟩, ?_⟩
  obtain ⟨out, t, hok, htot, hbuf, hbsz⟩ :=
    process_chunk_flush model s chunk rs hflush hres
  refine ⟨out, t, hok, ?_⟩
  rw [htot]
  have hone : 1 ≤ rs.length / required_samples s.vad :=
    (Nat.one_le_div_iff (required_samples_pos s.vad)).mpr hreq
  omega

/-- C1 (code bug): at the application's actual 44100 Hz capture rate into
the 16 kHz VAD, `target_buffer_samples = int(512/16000*44100) = 1411`, yet
a 1411-sample flush resamples to `int(1411/44100*16000) = 511 < 512`
samples, so zero frames are classified: even with a model that always
reports speech (probability 1), the call returns the prior `is_in_speech`
with probability `0.0` and leaves the state identical to a fresh session —
the flushed audio is silently dropped and `total_chunks` stays 0,
contradicting the claimed (and spec-stated) guarantee that every flush
yields at least one full required frame. -/
theorem c1_zero_frame_flush_bug :
    (StreamingVAD.init vadEx 44100 30).target_buffer_samples = 1411
    ∧ required_samples vadEx = 512
    ∧ (vadEx.resample_audio (List.replicate 1411 0) 44100).map List.length
        = .ok 511
    ∧ (StreamingVAD.init vadEx 44100 30).process_chunk (fun _ => .ok 1)
        (List.replicate 1411 0)
      = .ok ((false, 0), StreamingVAD.init vadEx 44100 30) :=
  ⟨by decide, by decide, by decide, by decide⟩

/-- C2 counterexample: three 700-sample chunks at 16 kHz capture and VAD
rate.  Each flush classifies `⌊700/512⌋ = 1` frame and discards the
188-sample remainder, so 3 frames are classified, while
`⌊N / 512⌋ = ⌊2100 / 512⌋ = 4` — the claimed session-level frame count
(and the claimed carry-forward of leftovers) fails. -/
theorem c2_counterexample :
    (processAll (fun _ => .ok 0) svadEx
        [List.replicate 700 0, List.replicate 700 0, List.replicate 700 0]).map
      (fun p => p.2.total_chunks) = .ok 3
    ∧ ((List.replicate 700 (0:ℚ)).length + (List.replicate 700 (0:ℚ)).length
        + (List.replicate 700 (0:ℚ)).length) / required_samples svadEx.vad = 4
    ∧ (3 : ℕ) ≠ 4 :=
  ⟨by decide, by decide, by decide⟩

/-- C2 amended: frame exactness holds per flush, not per session: each
flush classifies exactly `⌊L / required_frame_length⌋` frames where `L` is
that flush's resampled length, the resampled remainder is discarded (the
pending buffer is cleared, nothing is carried forward), while only
samples that never reached `target_buffer_samples` are carried at the
original rate. -/
theorem c2_amended (model : List ℚ → Except String ℚ)
    (s : StreamingVAD) (chunk : List ℚ) (rs : List ℚ)
    (hflush : s.target_buffer_samples ≤ s.buffer_size + chunk.length)
    (hres : s.vad.resample_audio ((s.buffer ++ [chunk]).flatten) s.original_rate
      = .ok rs) :
    ∃ out t, s.process_chunk model chunk = .ok (out, t)
      ∧ t.total_chunks = s.total_chunks + rs.length / required_samples s.vad
      ∧ t.buffer = [] ∧ t.buffer_size = 0 :=
  process_chunk_flush model s chunk rs hflush hres

theorem c2_amended_witness :
    ∃ out t, svadEx.process_chunk (fun _ => .ok 0) (List.replicate 700 0)
        = .ok (out, t)
      ∧ t.total_chunks = svadEx.total_chunks
          + (List.replicate 700 (0:ℚ)).length / required_samples svadEx.vad
      ∧ t.buffer = [] ∧ t.buffer_size = 0 :=
  c2_amended (fun _ => .ok 0) svadEx (List.replicate 700 0)
    (List.replicate 700 0) (by decide) (by decide)

/-- Zero out the configured `min_speech_duration_ms` and the
`min_speech_samples` derived from it, leaving every other field alone. -/
def scrubMsd (s : StreamingVAD) : StreamingVAD :=
  { s with vad := { s.vad with min_speech_duration_ms := 0, min_speech_samples := 0 } }

theorem resample_audio_scrub (v : VADProcessor) (audio : List ℚ) (orig : ℕ) :
    VADProcessor.resample_audio
        { v with min_speech_duration_ms := 0, min_speech_samples := 0 } audio orig
      = v.resample_audio audio orig := rfl

theorem required_samples_scrub (v : VADProcessor) :
    required_samples { v with min_speech_duration_ms := 0, min_speech_samples := 0 }
      = required_samples v := rfl

theorem segmenterStep_scrub (s : StreamingVAD) (b : List ℚ) (i : Bool) :
    segmenterStep (scrubMsd s) b i = scrubMsd (segmenterStep s b i) := by
  simp only [segmenterStep, scrubMsd]
  split_ifs <;> rfl

theorem scrubMsd_buffer (s : StreamingVAD) : (scrubMsd s).buffer = s.buffer := rfl

theorem scrubMsd_buffer_size (s : StreamingVAD) :
    (scrubMsd s).buffer_size = s.buffer_size := rfl

theorem scrubMsd_target (s : StreamingVAD) :
    (scrubMsd s).target_buffer_samples = s.target_buffer_samples := rfl

theorem scrubMsd_is_in_speech (s : StreamingVAD) :
    (scrubMsd s).is_in_speech = s.is_in_speech := rfl

theorem scrubMsd_original_rate (s : StreamingVAD) :
    (scrubMsd s).original_rate = s.original_rate := rfl

theorem scrubMsd_total_chunks (s : StreamingVAD) :
    (scrubMsd s).total_chunks = s.total_chunks := rfl

theorem scrubMsd_speech_chunks (s : StreamingVAD) :
    (scrubMsd s).speech_chunks = s.speech_chunks := rfl

theorem scrubMsd_vad_threshold (s : StreamingVAD) :
    (scrubMsd s).vad.threshold = s.vad.threshold := rfl

theorem scrubMsd_resample (s : StreamingVAD) (audio : List ℚ) (orig : ℕ) :
    (scrubMsd s).vad.resample_audio audio orig
      = s.vad.resample_audio audio orig := rfl

theorem scrubMsd_required (s : StreamingVAD) :
    required_samples (scrubMsd s).vad = required_samples s.vad := rfl

theorem process_chunk_scrub (model : List ℚ → Except String ℚ)
    (s : StreamingVAD) (c : List ℚ) :
    (scrubMsd s).process_chunk model c
      = (s.process_chunk model c).map (fun p => (p.1, scrubMsd p.2)) := by
  unfold StreamingVAD.process_chunk
  simp only [scrubMsd_buffer, scrubMsd_buffer_size, scrubMsd_target,
    scrubMsd_is_in_speech, scrubMsd_original_rate, scrubMsd_resample,
    scrubMsd_required, scrubMsd_vad_threshold, scrubMsd_total_chunks,
    scrubMsd_speech_chunks]
  by_cases hlt : s.buffer_size + c.length < s.target_buffer_samples
  · rw [if_pos hlt, if_pos hlt]
    rfl
  · rw [if_neg hlt, if_neg hlt]
    cases hE : s.vad.resample_audio ((s.buffer ++ [c]).flatten) s.original_rate with
    | error e => rfl
    | ok rs =>
      dsimp only
      by_cases hem : ((List.range (rs.length / required_samples s.vad)).map
          (fun i : ℕ =>
            match model ((rs.drop (i * required_samples s.vad)).take
                (required_samples s.vad)) with
            | .ok p => p
            | .error _ => 0)).isEmpty
      · rw [if_pos hem, if_pos hem]
        rfl
      · rw [if_neg hem, if_neg hem]
        simp only [Except.map]
        rw [← segmenterStep_scrub, apply_ite scrubMsd]
        rfl

theorem processAll_scrub (model : List ℚ → Except String ℚ)
    (chunks : List (List ℚ)) :
    ∀ s : StreamingVAD, processAll model (scrubMsd s) chunks
      = (processAll model s chunks).map (fun p => (p.1, scrubMsd p.2)) := by
  induction chunks with
  | nil => intro s; rfl
  | cons c cs ih =>
    intro s
    rw [processAll, processAll, process_chunk_scrub]
    cases hE : s.process_chunk model c with
    | error e => rfl
    | ok p =>
      obtain ⟨r, s1⟩ := p
      simp only [Except.map]
      rw [ih s1]
      cases hA : processAll model s1 cs with
      | error e => rfl
      | ok q => rfl

/-- C9: two runs of the streaming pipeline on the same chunk sequence with
the same model and identical configuration except for the
`min_speech_duration_ms` value produce identical `process_chunk` return
values, identical final retained speech audio (`get_speech_audio`) and
identical statistics (`get_statistics`): the segmentation state machine
never consults `min_speech_duration_ms`. -/
theorem c9_min_speech_duration_unused (sample_rate : ℕ) (threshold : ℚ)
    (msd1 msd2 msil pad orig cms : ℕ)
    (model : List ℚ → Except String ℚ) (chunks : List (List ℚ)) :
    (processAll model
        (StreamingVAD.init (VADProcessor.init sample_rate threshold msd1 msil pad)
          orig cms) chunks).map
      (fun p => (p.1, p.2.get_speech_audio, p.2.get_statistics))
      = (processAll model
          (StreamingVAD.init (VADProcessor.init sample_rate threshold msd2 msil pad)
            orig cms) chunks).map
        (fun p => (p.1, p.2.get_speech_audio, p.2.get_statistics)) := by
  have key : ∀ s : StreamingVAD,
      (processAll model s chunks).map
          (fun p => (p.1, p.2.get_speech_audio, p.2.get_statistics))
        = (processAll model (scrubMsd s) chunks).map
          (fun p => (p.1, p.2.get_speech_audio, p.2.get_statistics)) := by
    intro s
    rw [processAll_scrub]
    cases processAll model s chunks with
    | error e => rfl
    | ok p => rfl
  rw [key (StreamingVAD.init (VADProcessor.init sample_rate threshold msd1 msil pad)
        orig cms),
    key (StreamingVAD.init (VADProcessor.init sample_rate threshold msd2 msil pad)
        orig cms)]
  rfl

end SpeakPy
